import Mathlib

/-!
Shallow embedding of the authentication core of the martian-todos
repository: the four `/auth` route handlers from
`apps/backend/src/routes/auth.ts`, the shared zod schemas from
`packages/shared/src/types.ts`, the client-side session guard
(`useAuth` hook) and the CRUD fetch wrapper `apiFetch` from
`apps/frontend/src/api/todos.ts`.

Machine-level collaborators that the handlers call but do not define
(SHA-256, bcrypt, UUID generation, `randomBytes`, the zod e-mail format
check, calendar arithmetic of `getRefreshTokenExpiresAt`) are passed in
as components of an `Env` record: each handler is a pure function of the
environment, the database state and the request body, returning the HTTP
reply together with the new database state.  Timestamps are naturals
(epoch milliseconds); JavaScript `Date` comparison on `timestamptz`
columns is numeric comparison.
-/

namespace MartianTodos

/-- Epoch-millisecond timestamps, the numeric content of a JS `Date`. -/
abbrev Time := Nat

/-- A row of the `users` table (see `UsersTable` in `db/schema.ts`). -/
structure UserRow where
  id : String
  email : String
  password_hash : String
  name : String
  created_at : Time
  updated_at : Time
deriving DecidableEq

/-- A row of the `refresh_tokens` table (see `RefreshTokensTable`):
`revoked_at` is the nullable revocation timestamp. -/
structure RefreshTokenRow where
  id : String
  user_id : String
  token_hash : String
  expires_at : Time
  revoked_at : Option Time
  created_at : Time
deriving DecidableEq

/-- The credential-store state: the two tables the auth routes touch. -/
structure Db where
  users : List UserRow
  refresh_tokens : List RefreshTokenRow
deriving DecidableEq

/-- Public user view (`mapUser`'s result type `User`). -/
structure PublicUser where
  id : String
  email : String
  name : String
  createdAt : Time
  updatedAt : Time
deriving DecidableEq

/-- `mapUser` from `routes/auth.ts`: maps a database row to the API view. -/
def mapUser (row : UserRow) : PublicUser :=
  { id := row.id, email := row.email, name := row.name,
    createdAt := row.created_at, updatedAt := row.updated_at }

/-- The claims `fastify.jwt.sign` puts in an access token:
`{ sub: user.id, email: user.email }` (`createAccessToken`). -/
structure AccessToken where
  sub : String
  email : String
deriving DecidableEq

/-- `createAccessToken` from `routes/auth.ts`: signs `sub` and `email`. -/
def createAccessToken (user : UserRow) : AccessToken :=
  { sub := user.id, email := user.email }

/-- The `AuthResponse` payload `{ token, refreshToken, user }`. -/
structure AuthResponse where
  token : AccessToken
  refreshToken : String
  user : PublicUser
deriving DecidableEq

/-- The `error` object of a failure reply. -/
structure ErrorBody where
  code : String
  message : String
deriving DecidableEq

/-- An HTTP reply from a route handler: either `{success:true,data}`
with a status, or `{success:false,error}` with a status. -/
inductive ApiReply (α : Type) where
  | ok (status : Nat) (data : α)
  | err (status : Nat) (error : ErrorBody)
deriving DecidableEq

/-- The single 401 reply shared by every invalid-refresh-token path. -/
def invalidTokenReply {α : Type} : ApiReply α :=
  .err 401 ⟨"INVALID_TOKEN", "Invalid or expired refresh token"⟩

/-- The single undifferentiated 401 reply of failed logins. -/
def invalidCredentialsReply {α : Type} : ApiReply α :=
  .err 401 ⟨"INVALID_CREDENTIALS", "Invalid email or password"⟩

/-- The 400 reply of a failed zod parse (its `details` field carries no
information the claims mention and is omitted). -/
def validationErrorReply {α : Type} : ApiReply α :=
  .err 400 ⟨"VALIDATION_ERROR", "Invalid input"⟩

/-- The 409 duplicate-email reply of `/auth/register`. -/
def emailExistsReply {α : Type} : ApiReply α :=
  .err 409 ⟨"EMAIL_EXISTS", "An account with this email already exists"⟩

/-- Request-scoped environment: the cryptographic and generative
collaborators of one handler invocation.
`sha256hex` is `hashRefreshToken`'s digest; `emailValid` is zod's
`z.string().email()` format check; `bcryptHash` is `bcrypt.hash(p, 12)`
with the salt drawn for this request; `bcryptCompare` is
`bcrypt.compare`; `uuidUser`/`uuidToken` are the row ids the database
generates; `randomToken` is `generateRefreshToken()`'s output
(`randomBytes(32).toString("hex")`); `now` is `new Date()`;
`refreshExpiresAt` is `getRefreshTokenExpiresAt()` (calendar-day
addition of `JWT_REFRESH_EXPIRES_IN_DAYS`). -/
structure Env where
  sha256hex : String → String
  emailValid : String → Bool
  bcryptHash : String → String
  bcryptCompare : String → String → Bool
  uuidUser : String
  uuidToken : String
  randomToken : String
  now : Time
  refreshExpiresAt : Time

/-- `hashRefreshToken` from `routes/auth.ts`: SHA-256 hex digest. -/
def hashRefreshToken (env : Env) (tok : String) : String :=
  env.sha256hex tok

/-- JavaScript `String.prototype.toLowerCase` as the handlers use it on
e-mail addresses, embedded as per-character lowercasing. -/
def toLowerCase (s : String) : String :=
  String.mk (s.data.map Char.toLower)

/-- The `/auth/refresh` lookup: first `refresh_tokens` row whose
`token_hash` equals the given hash (`where("token_hash","=",tokenHash)`,
`executeTakeFirst`). -/
def findSessionByHash (db : Db) (h : String) : Option RefreshTokenRow :=
  db.refresh_tokens.find? (fun r => r.token_hash == h)

/-- User lookup by id (`where("id","=",session.user_id)`). -/
def findUserById (db : Db) (uid : String) : Option UserRow :=
  db.users.find? (fun u => u.id == uid)

/-- User lookup by (already lower-cased) email. -/
def findUserByEmail (db : Db) (e : String) : Option UserRow :=
  db.users.find? (fun u => u.email == e)

/-- The `POST /auth/refresh` handler, after the zod parse of
`{refreshToken}` succeeded.  Mirrors `routes/auth.ts` lines 251-294:
hash the token, look the session up, reject when missing, revoked or
`expires_at <= now`, re-derive the owning user (rejecting when absent),
and answer with a fresh access token, the same raw refresh token and
the user view.  No table is written. -/
def refreshRoute (env : Env) (db : Db) (refreshToken : String) :
    ApiReply AuthResponse × Db :=
  let tokenHash := hashRefreshToken env refreshToken
  match findSessionByHash db tokenHash with
  | none => (invalidTokenReply, db)
  | some session =>
    if session.revoked_at.isSome = true ∨ session.expires_at ≤ env.now then
      (invalidTokenReply, db)
    else
      match findUserById db session.user_id with
      | none => (invalidTokenReply, db)
      | some user =>
        (.ok 200 ⟨createAccessToken user, refreshToken, mapUser user⟩, db)

/-- Marks a row revoked at `now` (`set({ revoked_at: new Date() })`). -/
def revokeRow (now : Time) (r : RefreshTokenRow) : RefreshTokenRow :=
  { r with revoked_at := some now }

/-- Effect of `updateTable("refresh_tokens").set({revoked_at})
.where("id","=",sid)` on one row: revoke it iff its id matches. -/
def revokeMatching (now : Time) (sid : String) (r : RefreshTokenRow) :
    RefreshTokenRow :=
  if r.id == sid then revokeRow now r else r

/-- The `POST /auth/logout` handler, after the zod parse succeeded.
Mirrors `routes/auth.ts` lines 320-345: find the first row whose
`token_hash` matches and whose `revoked_at` is null (note: expiry is
not part of this lookup), answer 401 when none, otherwise set that
row's `revoked_at` (`where("id","=",session.id)`) and answer 204. -/
def logoutRoute (env : Env) (db : Db) (refreshToken : String) :
    ApiReply Unit × Db :=
  let tokenHash := hashRefreshToken env refreshToken
  match db.refresh_tokens.find?
      (fun r => r.token_hash == tokenHash && r.revoked_at == none) with
  | none => (invalidTokenReply, db)
  | some session =>
    (.ok 204 (),
     { db with refresh_tokens := (db.refresh_tokens.map
        (revokeMatching env.now session.id)) })

/-- The `/auth/login` request body. -/
structure LoginBody where
  email : String
  password : String
deriving DecidableEq

/-- `LoginSchema.safeParse` from `packages/shared/src/types.ts`:
`email: z.string().email(), password: z.string()` — the password field
accepts every string, only the email format is checked. -/
def loginParse (env : Env) (b : LoginBody) : Bool :=
  env.emailValid b.email

/-- The `POST /auth/login` handler, `routes/auth.ts` lines 156-225:
parse, look the user up by lower-cased email, answer the one
undifferentiated 401 when absent or when `bcrypt.compare` fails,
otherwise persist a new refresh-token row (hash only) and answer with
token, raw refresh token and user view. -/
def loginRoute (env : Env) (db : Db) (b : LoginBody) :
    ApiReply AuthResponse × Db :=
  if loginParse env b = false then (validationErrorReply, db)
  else
    match findUserByEmail db (toLowerCase b.email) with
    | none => (invalidCredentialsReply, db)
    | some user =>
      if env.bcryptCompare b.password user.password_hash = false then
        (invalidCredentialsReply, db)
      else
        let refreshToken := env.randomToken
        let row : RefreshTokenRow :=
          ⟨env.uuidToken, user.id, hashRefreshToken env refreshToken,
           env.refreshExpiresAt, none, env.now⟩
        (.ok 200 ⟨createAccessToken user, refreshToken, mapUser user⟩,
         { db with refresh_tokens := db.refresh_tokens ++ [row] })

/-- The `/auth/register` request body. -/
structure RegisterBody where
  email : String
  password : String
  name : String
deriving DecidableEq

/-- `CreateUserSchema.safeParse` from `packages/shared/src/types.ts`:
`email: z.string().email(), password: z.string().min(8),
name: z.string().min(1)`. -/
def registerParse (env : Env) (b : RegisterBody) : Bool :=
  env.emailValid b.email && decide (8 ≤ b.password.length)
    && decide (1 ≤ b.name.length)

/-- The `users` row `/auth/register` inserts: database-generated id and
timestamps, lower-cased email, bcrypt hash of the password. -/
def newUserRow (env : Env) (b : RegisterBody) : UserRow :=
  ⟨env.uuidUser, toLowerCase b.email, env.bcryptHash b.password, b.name,
   env.now, env.now⟩

/-- The `refresh_tokens` row `/auth/register` inserts: it stores only
the SHA-256 hash of the fresh raw token, with the configured expiry and
a null `revoked_at`. -/
def newTokenRow (env : Env) : RefreshTokenRow :=
  ⟨env.uuidToken, env.uuidUser, hashRefreshToken env env.randomToken,
   env.refreshExpiresAt, none, env.now⟩

/-- The `POST /auth/register` handler, `routes/auth.ts` lines 79-149:
parse, reject a duplicate of the lower-cased email with 409, otherwise
insert one `users` row (lower-cased email, bcrypt hash of the password)
and one `refresh_tokens` row (SHA-256 hash of the fresh raw token, never
the raw value), and answer 201 with token, raw refresh token and user
view. -/
def registerRoute (env : Env) (db : Db) (b : RegisterBody) :
    ApiReply AuthResponse × Db :=
  if registerParse env b = false then (validationErrorReply, db)
  else
    match db.users.find? (fun u => u.email == toLowerCase b.email) with
    | some _ => (emailExistsReply, db)
    | none =>
      (.ok 201 ⟨createAccessToken (newUserRow env b), env.randomToken,
         mapUser (newUserRow env b)⟩,
       ⟨db.users ++ [newUserRow env b],
        db.refresh_tokens ++ [newTokenRow env]⟩)

/-!
Client side.  `useAuth` (`hooks/useAuth.ts`) holds the access token and
user in React state and the raw refresh token in `localStorage`; the
three together form the client session.  The UI runtime is
single-threaded and event-driven: a call to `refreshAccessToken` runs
synchronously up to its first `await` (which is the `fetch` itself, and
is reached only after `refreshPromiseRef` has been consulted), so calls
interleave only at the granularity of the steps modelled below.
-/

/-- The client-held session: access token, user snapshot (opaque JSON),
and the `localStorage` copy of the raw refresh token. -/
structure Session where
  token : Option String
  user : Option String
  refreshToken : Option String
deriving DecidableEq

/-- `logout` from `useAuth`: `setToken(null); setUser(null);
localStorage.removeItem(REFRESH_TOKEN_KEY)`. -/
def clientLogout (_s : Session) : Session :=
  { token := none, user := none, refreshToken := none }

/-- The payload `json.data` of a successful `/auth/refresh` reply as the
client reads it. -/
structure RefreshData where
  token : String
  user : String
  refreshToken : String
deriving DecidableEq

/-- How one `fetch` of `/auth/refresh` settles, seen from the client:
a rejected promise (network error, or a body that fails `json()`), or a
server response with its `ok` flag and payload. -/
inductive FetchOutcome where
  | netError
  | response (ok : Bool) (data : RefreshData)
deriving DecidableEq

/-- The body of `refreshAccessToken`'s inner async function after the
`fetch` settles (`useAuth.ts` lines 90-111): any failure runs `logout()`
and resolves `null`; success stores the fresh token and user, replaces
the stored refresh token when the reply carries a truthy one, and
resolves the new access token. -/
def applyRefreshOutcome (s : Session) (o : FetchOutcome) :
    Session × Option String :=
  match o with
  | .netError => (clientLogout s, none)
  | .response false _ => (clientLogout s, none)
  | .response true d =>
    ({ token := some d.token, user := some d.user,
       refreshToken := if d.refreshToken ≠ "" then some d.refreshToken
                       else s.refreshToken },
     some d.token)

/-- One complete execution of `refreshAccessToken` that actually runs
the network operation (is not merely joined to an in-flight one), as a
function of the session and of how the network answers each raw token:
no stored refresh token means `logout()` and `null` without any network
call; otherwise the outcome of the single `fetch` is applied. -/
def refreshAccessTokenOnce (s : Session) (net : String → FetchOutcome) :
    Session × Option String :=
  match s.refreshToken with
  | none => (clientLogout s, none)
  | some rt => applyRefreshOutcome s (net rt)

/-- Recognizes the refresh outcomes the client treats as failures:
a network error or a response with `ok` false. -/
def isFailureOutcome (o : FetchOutcome) : Bool :=
  match o with
  | .netError => true
  | .response ok _ => !ok

/-- The observable state of the single-flight guard: the session, the
`refreshPromiseRef` handle (held iff a refresh is in flight), the number
of callers awaiting that in-flight promise, the number of network calls
issued to `/auth/refresh` so far, and the values already delivered to
settled callers. -/
structure GuardState where
  session : Session
  inflight : Bool
  waiting : Nat
  netCalls : Nat
  results : List (Option String)
deriving DecidableEq

/-- The synchronous prefix of one call to `refreshAccessToken`
(`useAuth.ts` lines 70-115): an in-flight refresh is joined; with no
stored refresh token the call logs out and resolves `null` immediately;
otherwise the `fetch` is issued and the handle set before control
returns to the event loop. -/
def callStep (g : GuardState) : GuardState :=
  if g.inflight = true then { g with waiting := g.waiting + 1 }
  else
    match g.session.refreshToken with
    | none => { g with session := clientLogout g.session,
                       results := g.results ++ [none] }
    | some _ => { g with inflight := true, waiting := g.waiting + 1,
                         netCalls := g.netCalls + 1 }

/-- The in-flight refresh settles with outcome `o`: the async body
resumes, updates the session, clears `refreshPromiseRef` in its
`finally`, and the promise delivers the same resolved value to every
joined caller. -/
def settleStep (g : GuardState) (o : FetchOutcome) : GuardState :=
  if g.inflight = true then
    let r := applyRefreshOutcome g.session o
    { session := r.1, inflight := false, waiting := 0,
      netCalls := g.netCalls,
      results := g.results ++ List.replicate g.waiting r.2 }
  else g

/-- `n` back-to-back synchronous invocations of `refreshAccessToken`
(no event-loop turn between them). -/
def callSteps : Nat → GuardState → GuardState
  | 0, g => g
  | n + 1, g => callSteps n (callStep g)

/-!
The CRUD HTTP client (`apps/frontend/src/api/todos.ts`).  `apiFetch`
performs exactly one `fetch`; on a non-ok response it throws an `Error`
built from the body's `error.message` (or `HTTP <status>` when the body
cannot be parsed) and performs no further work — in particular it never
invokes `refreshAccessToken` and never re-issues the request.
-/

/-- One HTTP response as `apiFetch` inspects it: the `ok` flag, the
status, the `error.error?.message` of the parsed body when available,
and the `json.data` payload (opaque). -/
structure HttpResponse where
  ok : Bool
  status : Nat
  errorMessage : Option String
  data : String
deriving DecidableEq

/-- What a call to `apiFetch` does for its caller: resolve with data
(`none` models the `undefined` of a 204) or throw an `Error`. -/
inductive FetchResult where
  | ok (data : Option String)
  | thrown (message : String)
deriving DecidableEq

/-- The complete observable behaviour of one `apiFetch` call: its
result, how many network requests it issued, and how many times it
invoked the session guard's refresh. -/
structure ApiFetchTrace where
  result : FetchResult
  fetchCount : Nat
  refreshAttempts : Nat
deriving DecidableEq

/-- `apiFetch` from `api/todos.ts` lines 8-34, applied to the response
of its single `fetch`: throw on any non-ok status (401 included), return
`undefined` on 204, otherwise return `json.data`.  The function contains
no refresh call and no retry, so the trace records one fetch and zero
refresh attempts on every path. -/
def apiFetch (resp : HttpResponse) : ApiFetchTrace :=
  if resp.ok = false then
    { result := .thrown (match resp.errorMessage with
        | some m => m
        | none => "HTTP " ++ toString resp.status),
      fetchCount := 1, refreshAttempts := 0 }
  else if resp.status == 204 then
    { result := .ok none, fetchCount := 1, refreshAttempts := 0 }
  else
    { result := .ok (some resp.data), fetchCount := 1,
      refreshAttempts := 0 }

/-!
Concrete fixtures used to instantiate the theorems below on closed
inputs.  The opaque collaborators are instantiated with simple
executable stand-ins: the digest prefixes `sha:`, the password hash
prefixes `bc:`, and comparison checks that shape.
-/

/-- A concrete environment for evaluation. -/
def envW : Env :=
  { sha256hex := fun s => "sha:" ++ s,
    emailValid := fun _ => true,
    bcryptHash := fun s => "bc:" ++ s,
    bcryptCompare := fun p h => h == "bc:" ++ p,
    uuidUser := "u2", uuidToken := "t2", randomToken := "fresh",
    now := 1000, refreshExpiresAt := 9999 }

/-- A concrete user row. -/
def userW : UserRow := ⟨"u1", "ada@x.io", "bc:pw123456", "Ada", 1, 1⟩

/-- A concrete refresh-token row for the raw token `"tok"`, active at
`envW.now` (not revoked, expires at 5000 > 1000). -/
def rowW : RefreshTokenRow := ⟨"t1", "u1", "sha:tok", 5000, none, 1⟩

/-- A concrete database holding `userW` and `rowW`. -/
def dbW : Db := ⟨[userW], [rowW]⟩

/-- A concrete client session holding all three pieces of state. -/
def sessionW : Session := ⟨some "acc", some "ada", some "tok"⟩

/-- C1: when the stored record for the supplied refresh token is active
(revokedAt null, expiresAt strictly in the future) and the owning user
exists, `/auth/refresh` replies 200 with a newly issued access token
bound to that user and the exact same raw refresh token, and the
database — the refresh-token record included — is returned unchanged:
no rotation occurs. -/
theorem c1_refresh_success_no_rotation (env : Env) (db : Db)
    (tok : String) (r : RefreshTokenRow) (u : UserRow)
    (hfind : findSessionByHash db (hashRefreshToken env tok) = some r)
    (hrev : r.revoked_at = none)
    (hexp : env.now < r.expires_at)
    (huser : findUserById db r.user_id = some u) :
    refreshRoute env db tok =
      (.ok 200 ⟨createAccessToken u, tok, mapUser u⟩, db) ∧
    (createAccessToken u).sub = u.id := by
  refine ⟨?_, rfl⟩
  have hcond : ¬ (r.revoked_at.isSome = true ∨ r.expires_at ≤ env.now) := by
    rw [hrev]
    simp only [Option.isSome_none, Bool.false_eq_true, false_or, not_le]
    exact hexp
  simp only [refreshRoute, hfind, if_neg hcond, huser]

/-- Closed instance of `c1_refresh_success_no_rotation` at the concrete
fixtures: the active record `rowW` with owner `userW`. -/
theorem c1_witness :
    (findSessionByHash dbW (hashRefreshToken envW "tok") = some rowW ∧
     rowW.revoked_at = none ∧ envW.now < rowW.expires_at ∧
     findUserById dbW rowW.user_id = some userW) ∧
    (refreshRoute envW dbW "tok" =
      (.ok 200 ⟨createAccessToken userW, "tok", mapUser userW⟩, dbW) ∧
     (createAccessToken userW).sub = userW.id) :=
  ⟨⟨by decide, by decide, by decide, by decide⟩,
   c1_refresh_success_no_rotation envW dbW "tok" rowW userW
     (by decide) (by decide) (by decide) (by decide)⟩

/-- C9: when the supplied token matches an active record whose owning
user row does not exist, `/auth/refresh` fails with the very same 401
INVALID_TOKEN reply used for unknown tokens, leaving the database
unchanged: a dangling record is indistinguishable from an invalid
token and never yields an access token. -/
theorem c9_refresh_dangling_user (env : Env) (db : Db) (tok : String)
    (r : RefreshTokenRow)
    (hfind : findSessionByHash db (hashRefreshToken env tok) = some r)
    (hrev : r.revoked_at = none)
    (hexp : env.now < r.expires_at)
    (huser : findUserById db r.user_id = none) :
    refreshRoute env db tok = (invalidTokenReply, db) ∧
    ∀ (db2 : Db) (tok2 : String),
      findSessionByHash db2 (hashRefreshToken env tok2) = none →
      (refreshRoute env db2 tok2).1 = (refreshRoute env db tok).1 := by
  have hcond : ¬ (r.revoked_at.isSome = true ∨ r.expires_at ≤ env.now) := by
    rw [hrev]
    simp only [Option.isSome_none, Bool.false_eq_true, false_or, not_le]
    exact hexp
  have hmain : refreshRoute env db tok = (invalidTokenReply, db) := by
    simp only [refreshRoute, hfind, if_neg hcond, huser]
  refine ⟨hmain, ?_⟩
  intro db2 tok2 hnone
  rw [hmain]
  simp only [refreshRoute, hnone]

/-- Closed instance of `c9_refresh_dangling_user`: a database whose
single refresh-token row points at a user id with no user row. -/
theorem c9_witness :
    (findSessionByHash ⟨[], [rowW]⟩ (hashRefreshToken envW "tok") =
       some rowW ∧
     rowW.revoked_at = none ∧ envW.now < rowW.expires_at ∧
     findUserById ⟨[], [rowW]⟩ rowW.user_id = none) ∧
    (refreshRoute envW ⟨[], [rowW]⟩ "tok" =
       (invalidTokenReply, ⟨[], [rowW]⟩) ∧
     ∀ (db2 : Db) (tok2 : String),
       findSessionByHash db2 (hashRefreshToken envW tok2) = none →
       (refreshRoute envW db2 tok2).1 =
         (refreshRoute envW ⟨[], [rowW]⟩ "tok").1) :=
  ⟨⟨by decide, by decide, by decide, by decide⟩,
   c9_refresh_dangling_user envW ⟨[], [rowW]⟩ "tok" rowW
     (by decide) (by decide) (by decide) (by decide)⟩

/-- C4: a login that fails because the email is unknown and a login
that fails because the password does not verify produce identical
replies — the same status 401, code INVALID_CREDENTIALS and message —
so the two causes are indistinguishable from the response alone. -/
theorem c4_login_indistinguishable
    (env1 env2 : Env) (db1 db2 : Db) (b1 b2 : LoginBody) (u : UserRow)
    (hp1 : loginParse env1 b1 = true)
    (hp2 : loginParse env2 b2 = true)
    (h1 : findUserByEmail db1 (toLowerCase b1.email) = none)
    (h2 : findUserByEmail db2 (toLowerCase b2.email) = some u)
    (h2c : env2.bcryptCompare b2.password u.password_hash = false) :
    (loginRoute env1 db1 b1).1 = (loginRoute env2 db2 b2).1 ∧
    (loginRoute env1 db1 b1).1 =
      (invalidCredentialsReply : ApiReply AuthResponse) := by
  have e1 : (loginRoute env1 db1 b1).1 =
      (invalidCredentialsReply : ApiReply AuthResponse) := by
    simp [loginRoute, hp1, h1]
  have e2 : (loginRoute env2 db2 b2).1 =
      (invalidCredentialsReply : ApiReply AuthResponse) := by
    simp [loginRoute, hp2, h2, h2c]
  exact ⟨e1.trans e2.symm, e1⟩

/-- Closed instance of `c4_login_indistinguishable`: an unknown email
versus a wrong password for the stored user `userW`. -/
theorem c4_witness :
    (loginParse envW ⟨"none@x.io", "pw"⟩ = true ∧
     loginParse envW ⟨"Ada@x.io", "wrongpass"⟩ = true ∧
     findUserByEmail dbW (toLowerCase "none@x.io") = none ∧
     findUserByEmail dbW (toLowerCase "Ada@x.io") = some userW ∧
     envW.bcryptCompare "wrongpass" userW.password_hash = false) ∧
    ((loginRoute envW dbW ⟨"none@x.io", "pw"⟩).1 =
       (loginRoute envW dbW ⟨"Ada@x.io", "wrongpass"⟩).1 ∧
     (loginRoute envW dbW ⟨"none@x.io", "pw"⟩).1 =
       (invalidCredentialsReply : ApiReply AuthResponse)) :=
  ⟨⟨by decide, by decide, by decide, by decide, by decide⟩,
   c4_login_indistinguishable envW envW dbW dbW
     ⟨"none@x.io", "pw"⟩ ⟨"Ada@x.io", "wrongpass"⟩ userW
     (by decide) (by decide) (by decide) (by decide) (by decide)⟩

/-- C10: the login schema imposes no minimum password length, so with a
well-formed email every password string — the empty string included —
passes validation, and when the credentials do not verify the request
fails with the 401 INVALID_CREDENTIALS reply, never with a 400
validation error on account of the password. -/
theorem c10_login_password_not_validated (env : Env) (db : Db)
    (email pwd : String)
    (hmail : env.emailValid email = true)
    (hfail : ∀ u : UserRow, findUserByEmail db (toLowerCase email) = some u →
      env.bcryptCompare pwd u.password_hash = false) :
    loginParse env ⟨email, pwd⟩ = true ∧
    loginRoute env db ⟨email, pwd⟩ = (invalidCredentialsReply, db) := by
  have hparse : loginParse env ⟨email, pwd⟩ = true := hmail
  refine ⟨hparse, ?_⟩
  cases hfind : findUserByEmail db (toLowerCase email) with
  | none => simp [loginRoute, hparse, hfind]
  | some u => simp [loginRoute, hparse, hfind, hfail u hfind]

/-- Closed instance of `c10_login_password_not_validated`: the empty
password against the stored user `userW` parses and yields 401. -/
theorem c10_witness :
    (envW.emailValid "ada@x.io" = true ∧
     ∀ u : UserRow, findUserByEmail dbW (toLowerCase "ada@x.io") = some u →
       envW.bcryptCompare "" u.password_hash = false) ∧
    (loginParse envW ⟨"ada@x.io", ""⟩ = true ∧
     loginRoute envW dbW ⟨"ada@x.io", ""⟩ = (invalidCredentialsReply, dbW)) :=
  ⟨⟨by decide,
    by
      intro u hu
      rw [show findUserByEmail dbW (toLowerCase "ada@x.io") = some userW
        from by decide] at hu
      cases hu
      decide⟩,
   c10_login_password_not_validated envW dbW "ada@x.io" ""
     (by decide)
     (by
       intro u hu
       rw [show findUserByEmail dbW (toLowerCase "ada@x.io") = some userW
         from by decide] at hu
       cases hu
       decide)⟩

/-- C6: the CRUD HTTP client surfaces a 401 response as a thrown error
immediately — its trace shows the single original fetch, zero refresh
attempts and zero retries, both when the body carries a server message
and when it does not.  (This documents the divergence from the
spec's refresh-and-retry-once policy: no code in the frontend consumes
`refreshAccessToken`.) -/
theorem c6_apiFetch_401_no_retry :
    apiFetch ⟨false, 401, some "Invalid or expired refresh token", ""⟩ =
      ⟨.thrown "Invalid or expired refresh token", 1, 0⟩ ∧
    apiFetch ⟨false, 401, none, ""⟩ = ⟨.thrown "HTTP 401", 1, 0⟩ :=
  ⟨rfl, by decide⟩

/-- C7: every failing execution of `refreshAccessToken` — no stored
refresh token, a network error, or a non-OK server response — resolves
to `null` and clears the whole session: access token, user snapshot and
stored refresh token are all `none` afterwards, never a partial
session. -/
theorem c7_refresh_fail_closed (s : Session) (net : String → FetchOutcome)
    (hfail : ∀ rt, s.refreshToken = some rt →
      isFailureOutcome (net rt) = true) :
    refreshAccessTokenOnce s net =
      ({ token := none, user := none, refreshToken := none }, none) := by
  cases hrt : s.refreshToken with
  | none => simp [refreshAccessTokenOnce, hrt, clientLogout]
  | some rt =>
    have hf := hfail rt hrt
    cases hnet : net rt with
    | netError =>
      simp [refreshAccessTokenOnce, hrt, hnet, applyRefreshOutcome,
        clientLogout]
    | response ok d =>
      cases ok with
      | false =>
        simp [refreshAccessTokenOnce, hrt, hnet, applyRefreshOutcome,
          clientLogout]
      | true =>
        rw [hnet] at hf
        simp [isFailureOutcome] at hf

/-- Closed instance of `c7_refresh_fail_closed`: a network error tears
the full session `sessionW` down to the anonymous state. -/
theorem c7_witness :
    (∀ rt, sessionW.refreshToken = some rt →
      isFailureOutcome ((fun _ => FetchOutcome.netError) rt) = true) ∧
    refreshAccessTokenOnce sessionW (fun _ => FetchOutcome.netError) =
      ({ token := none, user := none, refreshToken := none }, none) :=
  ⟨fun _ _ => rfl,
   c7_refresh_fail_closed sessionW (fun _ => FetchOutcome.netError)
     (fun _ _ => rfl)⟩

/-- Helper: while a refresh is in flight, each further call only joins
the in-flight promise — no field but the waiter count changes. -/
theorem callSteps_of_inflight (m : Nat) (g : GuardState)
    (h : g.inflight = true) :
    callSteps m g = { g with waiting := g.waiting + m } := by
  induction m generalizing g with
  | zero => simp [callSteps]
  | succ k ih =>
    have hstep : callStep g = { g with waiting := g.waiting + 1 } := by
      simp [callStep, h]
    show callSteps k (callStep g) = _
    rw [hstep, ih { g with waiting := g.waiting + 1 } h]
    simp
    omega

/-- C5: from the idle state with a stored refresh token, `n ≥ 1`
concurrent callers of `refreshAccessToken` produce exactly one network
call — the later callers join the in-flight promise; when the single
operation settles, every one of the `n` callers receives the same
resolved value, the in-flight handle is only then cleared, and a later
call (while a refresh token is still stored) starts a fresh network
attempt. -/
theorem c5_single_flight (s : Session) (rt : String) (n : Nat)
    (hrt : s.refreshToken = some rt) (hn : 1 ≤ n) :
    callSteps n ⟨s, false, 0, 0, []⟩ = ⟨s, true, n, 1, []⟩ ∧
    (∀ o : FetchOutcome,
      settleStep (callSteps n ⟨s, false, 0, 0, []⟩) o =
        ⟨(applyRefreshOutcome s o).1, false, 0, 1,
         List.replicate n (applyRefreshOutcome s o).2⟩) ∧
    (∀ o : FetchOutcome,
      ((settleStep (callSteps n ⟨s, false, 0, 0, []⟩) o).session.refreshToken).isSome
          = true →
      (callStep (settleStep (callSteps n ⟨s, false, 0, 0, []⟩) o)).netCalls
          = 2) := by
  obtain ⟨m, rfl⟩ : ∃ m, n = m + 1 := ⟨n - 1, by omega⟩
  have hfirst : callStep ⟨s, false, 0, 0, []⟩ = ⟨s, true, 1, 1, []⟩ := by
    simp [callStep, hrt]
  have hall : callSteps (m + 1) ⟨s, false, 0, 0, []⟩ =
      ⟨s, true, m + 1, 1, []⟩ := by
    show callSteps m (callStep ⟨s, false, 0, 0, []⟩) = _
    rw [hfirst, callSteps_of_inflight m _ rfl]
    simp [Nat.add_comm]
  refine ⟨hall, ?_, ?_⟩
  · intro o
    rw [hall]
    simp [settleStep]
  · intro o h
    rw [hall] at h ⊢
    simp [settleStep] at h ⊢
    obtain ⟨x, hx⟩ := Option.isSome_iff_exists.mp h
    simp [callStep, hx]

/-- Closed instance of `c5_single_flight`: five concurrent callers on
the session `sessionW` make one network call and share one result. -/
theorem c5_witness :
    (sessionW.refreshToken = some "tok" ∧ 1 ≤ 5) ∧
    (callSteps 5 ⟨sessionW, false, 0, 0, []⟩ =
       ⟨sessionW, true, 5, 1, []⟩ ∧
     (∀ o : FetchOutcome,
       settleStep (callSteps 5 ⟨sessionW, false, 0, 0, []⟩) o =
         ⟨(applyRefreshOutcome sessionW o).1, false, 0, 1,
          List.replicate 5 (applyRefreshOutcome sessionW o).2⟩) ∧
     (∀ o : FetchOutcome,
       ((settleStep (callSteps 5 ⟨sessionW, false, 0, 0, []⟩) o).session.refreshToken).isSome
           = true →
       (callStep (settleStep (callSteps 5 ⟨sessionW, false, 0, 0, []⟩) o)).netCalls
           = 2)) :=
  ⟨⟨rfl, by decide⟩,
   c5_single_flight sessionW "tok" 5 rfl (by decide)⟩

/-- C2: under referential integrity (every refresh-token row has its
owning user row — the schema's NOT NULL foreign key), `/auth/refresh`
answers the single 401 INVALID_TOKEN error exactly when no stored
record hashes to the supplied token, or the matching record is revoked,
or its expiry is not strictly in the future (`expires_at ≤ now`); in
every such case the same one error value is returned. -/
theorem c2_refresh_invalid_iff (env : Env) (db : Db) (tok : String)
    (href : ∀ r ∈ db.refresh_tokens,
      (findUserById db r.user_id).isSome = true) :
    (refreshRoute env db tok).1 = invalidTokenReply ↔
      ∀ r, findSessionByHash db (hashRefreshToken env tok) = some r →
        (r.revoked_at ≠ none ∨ r.expires_at ≤ env.now) := by
  cases hfind : findSessionByHash db (hashRefreshToken env tok) with
  | none =>
    apply iff_of_true
    · simp [refreshRoute, hfind]
    · intro r hr
      cases hr
  | some s =>
    by_cases hc : s.revoked_at.isSome = true ∨ s.expires_at ≤ env.now
    · apply iff_of_true
      · simp [refreshRoute, hfind, if_pos hc]
      · intro r hr
        cases hr
        rcases hc with hc | hc
        · exact Or.inl (Option.isSome_iff_ne_none.mp hc)
        · exact Or.inr hc
    · have hs_mem : s ∈ db.refresh_tokens := by
        have hf := hfind
        unfold findSessionByHash at hf
        exact List.mem_of_find?_eq_some hf
      obtain ⟨u, hu⟩ := Option.isSome_iff_exists.mp (href s hs_mem)
      apply iff_of_false
      · simp [refreshRoute, hfind, if_neg hc, hu, invalidTokenReply]
      · intro hall
        rcases hall s rfl with h1 | h2
        · exact hc (Or.inl (Option.isSome_iff_ne_none.mpr h1))
        · exact hc (Or.inr h2)

/-- Closed instance of `c2_refresh_invalid_iff` on the fixture
database, whose only token row is owned by the stored user. -/
theorem c2_witness :
    (∀ r ∈ dbW.refresh_tokens,
      (findUserById dbW r.user_id).isSome = true) ∧
    ((refreshRoute envW dbW "tok").1 = invalidTokenReply ↔
      ∀ r, findSessionByHash dbW (hashRefreshToken envW "tok") = some r →
        (r.revoked_at ≠ none ∨ r.expires_at ≤ envW.now)) :=
  ⟨by decide, c2_refresh_invalid_iff envW dbW "tok" (by decide)⟩

/-- A database whose single refresh-token row for `"tok"` is already
expired (expires at 500 < `envW.now` = 1000) but never revoked. -/
def dbX : Db := ⟨[userW], [⟨"t1", "u1", "sha:tok", 500, none, 1⟩]⟩

/-- C3 counterexample: `/auth/logout` of a token whose only matching
record is already expired (and not revoked) succeeds with 204 — the
logout lookup never checks expiry, refuting that logout succeeds only
when a currently-active (non-expired) record matches. -/
theorem c3_counterexample :
    (logoutRoute envW dbX "tok").1 = .ok 204 () ∧
    ∀ r ∈ dbX.refresh_tokens,
      r.token_hash = hashRefreshToken envW "tok" →
      r.expires_at ≤ envW.now := by decide

/-- Helper: `find?` returns the element when it satisfies the predicate
and is the only member of the list doing so. -/
theorem find?_eq_some_of_unique {α : Type} (p : α → Bool) (l : List α)
    (a : α) (ha : a ∈ l) (hpa : p a = true)
    (huniq : ∀ b ∈ l, p b = true → b = a) :
    l.find? p = some a := by
  induction l with
  | nil => cases ha
  | cons x xs ih =>
    by_cases hx : p x = true
    · rw [List.find?_cons_of_pos _ hx]
      exact congrArg some (huniq x (List.mem_cons_self x xs) hx)
    · rw [List.find?_cons_of_neg _ hx]
      rcases List.mem_cons.mp ha with rfl | hmem
      · exact absurd hpa hx
      · exact ih hmem (fun b hb hpb => huniq b (List.mem_cons_of_mem x hb) hpb)

/-- C3 amended: under the schema's uniqueness constraint on
`token_hash`, `/auth/logout` succeeds (204, setting the matched row's
`revoked_at` to now) iff some not-yet-revoked record matches the
supplied token's hash — expiry is not consulted by the logout lookup;
every failure is the 401 INVALID_TOKEN reply with the database
untouched; after a successful logout of a token, a second logout with
the same token fails and so does a subsequent refresh of it. -/
theorem c3_logout_amended (env : Env) (db : Db) (tok : String)
    (hhash : ∀ r1 ∈ db.refresh_tokens, ∀ r2 ∈ db.refresh_tokens,
      r1.token_hash = r2.token_hash → r1 = r2) :
    ((logoutRoute env db tok).1 = .ok 204 () ↔
      ∃ r ∈ db.refresh_tokens,
        r.token_hash = hashRefreshToken env tok ∧ r.revoked_at = none) ∧
    ((logoutRoute env db tok).1 ≠ .ok 204 () →
      logoutRoute env db tok = (invalidTokenReply, db)) ∧
    (∀ db2 : Db, logoutRoute env db tok = (.ok 204 (), db2) →
      (logoutRoute env db2 tok).1 = invalidTokenReply ∧
      (refreshRoute env db2 tok).1 = invalidTokenReply) := by
  cases hfind : db.refresh_tokens.find?
      (fun r => r.token_hash == hashRefreshToken env tok
        && r.revoked_at == none) with
  | none =>
    refine ⟨?_, ?_, ?_⟩
    · apply iff_of_false
      · simp [logoutRoute, hfind, invalidTokenReply]
      · rintro ⟨r, hmem, hh, hrev⟩
        have hpr := List.find?_eq_none.mp hfind r hmem
        simp [hh, hrev] at hpr
    · intro _
      simp [logoutRoute, hfind]
    · intro db2 heq
      simp [logoutRoute, hfind, invalidTokenReply] at heq
  | some s =>
    have hmem : s ∈ db.refresh_tokens := List.mem_of_find?_eq_some hfind
    have hps := List.find?_some hfind
    simp only [Bool.and_eq_true, beq_iff_eq] at hps
    obtain ⟨hsh, hsrev⟩ := hps
    refine ⟨?_, ?_, ?_⟩
    · apply iff_of_true
      · simp [logoutRoute, hfind]
      · exact ⟨s, hmem, hsh, hsrev⟩
    · intro hne
      exfalso
      apply hne
      simp [logoutRoute, hfind]
    · intro db2 heq
      have hval : logoutRoute env db tok =
          (.ok 204 (), { db with refresh_tokens := (db.refresh_tokens.map
            (revokeMatching env.now s.id)) }) := by
        simp [logoutRoute, hfind]
      rw [hval] at heq
      injection heq with h1 h2
      subst h2
      constructor
      · have hnone2 : (db.refresh_tokens.map
            (revokeMatching env.now s.id)).find?
            (fun r => r.token_hash == hashRefreshToken env tok
              && r.revoked_at == none) = none := by
          rw [List.find?_map]
          have hinner : db.refresh_tokens.find?
              ((fun r => r.token_hash == hashRefreshToken env tok
                && r.revoked_at == none) ∘ revokeMatching env.now s.id)
              = none := by
            apply List.find?_eq_none.mpr
            intro r hr
            show ¬ ((revokeMatching env.now s.id r).token_hash == _
              && (revokeMatching env.now s.id r).revoked_at == none) = true
            by_cases hcase : (r.id == s.id) = true
            · simp [revokeMatching, hcase, revokeRow]
            · have hgr : revokeMatching env.now s.id r = r := by
                simp [revokeMatching, hcase]
              rw [hgr]
              intro hpr
              simp only [Bool.and_eq_true, beq_iff_eq] at hpr
              have : r = s := hhash r hr s hmem (hpr.1.trans hsh.symm)
              rw [this] at hcase
              simp at hcase
          rw [hinner]
          rfl
        simp [logoutRoute, hnone2]
      · have hq : (db.refresh_tokens.map
            (revokeMatching env.now s.id)).find?
            (fun r => r.token_hash == hashRefreshToken env tok)
            = some (revokeRow env.now s) := by
          rw [List.find?_map]
          have hpg : ((fun r : RefreshTokenRow =>
              r.token_hash == hashRefreshToken env tok)
              ∘ revokeMatching env.now s.id) =
              fun r : RefreshTokenRow =>
                r.token_hash == hashRefreshToken env tok := by
            funext r
            show ((revokeMatching env.now s.id r).token_hash == _) = _
            by_cases hcase : (r.id == s.id) = true
            · simp [revokeMatching, hcase, revokeRow]
            · simp [revokeMatching, hcase]
          rw [hpg]
          have hfq : db.refresh_tokens.find?
              (fun r => r.token_hash == hashRefreshToken env tok)
              = some s := by
            apply find?_eq_some_of_unique _ _ s hmem (by simp [hsh])
            intro b hb hpb
            exact hhash b hb s hmem ((beq_iff_eq.mp hpb).trans hsh.symm)
          rw [hfq]
          show some (revokeMatching env.now s.id s) = _
          simp [revokeMatching, revokeRow]
        have : findSessionByHash
            { db with refresh_tokens := (db.refresh_tokens.map
              (revokeMatching env.now s.id)) }
            (hashRefreshToken env tok) = some (revokeRow env.now s) := hq
        simp [refreshRoute, this, revokeRow]

/-- Closed instance of `c3_logout_amended` on the fixture database
(unique ids and token hashes hold trivially). -/
theorem c3_witness :
    (∀ r1 ∈ dbW.refresh_tokens, ∀ r2 ∈ dbW.refresh_tokens,
       r1.token_hash = r2.token_hash → r1 = r2) ∧
    (((logoutRoute envW dbW "tok").1 = .ok 204 () ↔
       ∃ r ∈ dbW.refresh_tokens,
         r.token_hash = hashRefreshToken envW "tok" ∧
         r.revoked_at = none) ∧
     ((logoutRoute envW dbW "tok").1 ≠ .ok 204 () →
       logoutRoute envW dbW "tok" = (invalidTokenReply, dbW)) ∧
     (∀ db2 : Db, logoutRoute envW dbW "tok" = (.ok 204 (), db2) →
       (logoutRoute envW db2 "tok").1 = invalidTokenReply ∧
       (refreshRoute envW db2 "tok").1 = invalidTokenReply)) :=
  ⟨by decide,
   c3_logout_amended envW dbW "tok" (by decide)⟩

/-- C8: on `/auth/register`, invalid input (empty name, password
shorter than 8, malformed email) yields the 400 validation reply with
the database unchanged; a case-insensitive duplicate email (under the
invariant that stored emails are lower-cased, as this route stores
them) yields the 409 EMAIL_EXISTS reply with the database unchanged;
otherwise the route answers 201 with the access token, the raw refresh
token and the public user view, appending exactly one `users` row and
exactly one `refresh_tokens` row, the latter holding only the SHA-256
hash of the raw token. -/
theorem c8_register_cases (env : Env) (db : Db) (b : RegisterBody)
    (hlow : ∀ u ∈ db.users, toLowerCase u.email = u.email) :
    (registerParse env b = false →
      registerRoute env db b = (validationErrorReply, db)) ∧
    (registerParse env b = true →
      (∃ u ∈ db.users, toLowerCase u.email = toLowerCase b.email) →
      registerRoute env db b = (emailExistsReply, db)) ∧
    (registerParse env b = true →
      (¬ ∃ u ∈ db.users, toLowerCase u.email = toLowerCase b.email) →
      registerRoute env db b =
        (.ok 201 ⟨createAccessToken (newUserRow env b), env.randomToken,
           mapUser (newUserRow env b)⟩,
         ⟨db.users ++ [newUserRow env b],
          db.refresh_tokens ++ [newTokenRow env]⟩)) := by
  have hdup : (∃ u ∈ db.users, toLowerCase u.email = toLowerCase b.email)
      ↔ (∃ u ∈ db.users, u.email = toLowerCase b.email) := by
    constructor
    · rintro ⟨u, hu, he⟩
      exact ⟨u, hu, (hlow u hu).symm.trans he⟩
    · rintro ⟨u, hu, he⟩
      exact ⟨u, hu, (hlow u hu).trans he⟩
  refine ⟨?_, ?_, ?_⟩
  · intro hp
    simp [registerRoute, hp]
  · intro hp hex
    obtain ⟨u, hu, he⟩ := hdup.mp hex
    cases hfind : db.users.find? (fun v => v.email == toLowerCase b.email) with
    | none =>
      have := List.find?_eq_none.mp hfind u hu
      simp [he] at this
    | some v =>
      simp [registerRoute, hp, hfind]
  · intro hp hnex
    have hn : db.users.find? (fun v => v.email == toLowerCase b.email)
        = none := by
      apply List.find?_eq_none.mpr
      intro u hu hpu
      exact hnex (hdup.mpr ⟨u, hu, beq_iff_eq.mp hpu⟩)
    simp [registerRoute, hp, hn]

/-- Closed instance of `c8_register_cases`: registering a fresh
mixed-case email against the fixture database. -/
theorem c8_witness :
    (∀ u ∈ dbW.users, toLowerCase u.email = u.email) ∧
    ((registerParse envW ⟨"Alice@X.io", "password123", "Alice"⟩ = false →
       registerRoute envW dbW ⟨"Alice@X.io", "password123", "Alice"⟩ =
         (validationErrorReply, dbW)) ∧
     (registerParse envW ⟨"Alice@X.io", "password123", "Alice"⟩ = true →
       (∃ u ∈ dbW.users, toLowerCase u.email =
         toLowerCase ("Alice@X.io" : String)) →
       registerRoute envW dbW ⟨"Alice@X.io", "password123", "Alice"⟩ =
         (emailExistsReply, dbW)) ∧
     (registerParse envW ⟨"Alice@X.io", "password123", "Alice"⟩ = true →
       (¬ ∃ u ∈ dbW.users, toLowerCase u.email =
         toLowerCase ("Alice@X.io" : String)) →
       registerRoute envW dbW ⟨"Alice@X.io", "password123", "Alice"⟩ =
         (.ok 201 ⟨createAccessToken
             (newUserRow envW ⟨"Alice@X.io", "password123", "Alice"⟩),
           envW.randomToken,
           mapUser (newUserRow envW ⟨"Alice@X.io", "password123", "Alice"⟩)⟩,
          ⟨dbW.users ++ [newUserRow envW ⟨"Alice@X.io", "password123", "Alice"⟩],
           dbW.refresh_tokens ++ [newTokenRow envW]⟩))) :=
  ⟨by decide,
   c8_register_cases envW dbW ⟨"Alice@X.io", "password123", "Alice"⟩
     (by decide)⟩

end MartianTodos
